import Mathlib

/-!
Shallow embedding of the task-graph composition and versioned-execution
layer of `src/egon/data/datasets/__init__.py` (the `connect` combinator,
the `Dataset` dataclass with its `__post_init__`, `check_version` and
`update` methods, and the SQLAlchemy `Model`/`DependencyGraph` schema).

Task nodes (airflow `Operator` instances) are identified by natural
numbers.  The edges created by `set_downstream` mutate global node state
in Python; here they are collected in an explicit edge set that is
threaded through each function, where the pair `(p, s)` means task `p`
is an upstream (predecessor) of task `s`.
-/

namespace EgonDatasets

/-- The dataclass `Tasks(first, last, all)` returned by `connect`:
Python sets of operators become finite sets of task identifiers. -/
structure Tasks where
  first : Finset Nat
  last : Finset Nat
  all : Finset Nat
deriving DecidableEq

/-- The run-time shapes an argument of `connect` can have, following the
`isinstance` checks in the source: an `Operator` (`op`), a Python set of
sub-expressions (`set`), a tuple of sub-expressions (`tup`), any other
object (`other (some n)` when the object is `Sized` with length `n`,
`other none` when it has no length), and an instance of the `Tasks`
dataclass itself, which `Dataset.__post_init__` passes back into
`connect` inside a tuple.  A `Tasks` instance has no `__len__` and is
neither an `Operator`, an `abc.Set` nor a `tuple`. -/
inductive PyObj where
  | op (t : Nat)
  | set (gs : List PyObj)
  | tup (gs : List PyObj)
  | other (size : Option Nat)
  | tasksVal (t : Tasks)

/-- The error raised by the final `else` branch of `connect` (a Python
`TypeError`; the specification's name for it is
`InvalidGraphExpression`). -/
inductive ConnectError where
  | typeError
deriving DecidableEq

/-- Union of the `first` components of a list of `connect` results,
modelling `{task for result in results for task in result.first}`. -/
def unionFirsts (rs : List Tasks) : Finset Nat :=
  rs.foldr (fun t acc => t.first ∪ acc) ∅

/-- Union of the `last` components of a list of `connect` results. -/
def unionLasts (rs : List Tasks) : Finset Nat :=
  rs.foldr (fun t acc => t.last ∪ acc) ∅

/-- Union of the `all` components of a list of `connect` results. -/
def unionAlls (rs : List Tasks) : Finset Nat :=
  rs.foldr (fun t acc => t.all ∪ acc) ∅

/-- Access `results[0].first` (the empty case is unreachable because the
tuple branch runs only on non-empty tuples). -/
def headFirst : List Tasks → Finset Nat
  | [] => ∅
  | t :: _ => t.first

/-- Access `results[-1].last`. -/
def lastLast (rs : List Tasks) : Finset Nat :=
  match rs.getLast? with
  | none => ∅
  | some t => t.last

/-- The edges added by the `zip(results[:-1], results[1:])` loop of the
tuple branch: for each adjacent pair `(left, right)`, every task of
`left.last` calls `set_downstream` on every task of `right.first`. -/
def chainEdges : List Tasks → Finset (Nat × Nat)
  | [] => ∅
  | [_] => ∅
  | a :: b :: rest => a.last ×ˢ b.first ∪ chainEdges (b :: rest)

mutual

/-- The combinator `connect` of the source, with the global mutable edge
state made explicit: `connect g E` returns the `Tasks` triple together
with the updated edge set, or the `TypeError` of the final branch.  The
cases follow the source's `if`/`elif` chain in order: `Operator` first,
then any `Sized` object of length zero (which covers the empty set, the
empty tuple and any other empty sized collection), then sets, then
tuples, and `TypeError` otherwise. -/
def connect : PyObj → Finset (Nat × Nat) → Except ConnectError (Tasks × Finset (Nat × Nat))
  | .op t, E => .ok (⟨{t}, {t}, {t}⟩, E)
  | .set [], E => .ok (⟨∅, ∅, ∅⟩, E)
  | .tup [], E => .ok (⟨∅, ∅, ∅⟩, E)
  | .other (some 0), E => .ok (⟨∅, ∅, ∅⟩, E)
  | .set (g :: gs), E =>
    match connectList (g :: gs) E with
    | .error e => .error e
    | .ok (rs, E1) => .ok (⟨unionFirsts rs, unionLasts rs, unionAlls rs⟩, E1)
  | .tup (g :: gs), E =>
    match connectList (g :: gs) E with
    | .error e => .error e
    | .ok (rs, E1) =>
      .ok (⟨headFirst rs, lastLast rs, unionAlls rs⟩, E1 ∪ chainEdges rs)
  | .other none, _ => .error .typeError
  | .other (some (_ + 1)), _ => .error .typeError
  | .tasksVal _, _ => .error .typeError

/-- The list comprehension `[connect(subtasks) for subtasks in tasks]`,
threading the edge state left to right. -/
def connectList : List PyObj → Finset (Nat × Nat) → Except ConnectError (List Tasks × Finset (Nat × Nat))
  | [], E => .ok ([], E)
  | g :: gs, E =>
    match connect g E with
    | .error e => .error e
    | .ok (t, E1) =>
      match connectList gs E1 with
      | .error e => .error e
      | .ok (ts, E2) => .ok (t :: ts, E2)

end

/-- The errors `Dataset.__post_init__` can raise: the `TypeError` coming
out of a `connect` call, and the `IndexError` raised by
`list(self.tasks.last)[0]` when the set `last` is empty. -/
inductive PostInitError where
  | connectTypeError
  | indexError
deriving DecidableEq

/-- The subscript `list(s)[0]` applied to a Python set `s`: converting a
set to a list enumerates it in an unspecified order (modelled here by
sorting the identifiers), and indexing an empty list raises
`IndexError`. -/
def listIndexZero (s : Finset Nat) : Except PostInitError Nat :=
  match s.sort (· ≤ ·) with
  | [] => .error .indexError
  | x :: _ => .ok x

/-- `Dataset.__post_init__`, after the `list(...)` copy of the
dependencies (modelled separately, see `snapshotDependencies`):
`connect` the task expression; if more than one task is in `last`,
create the no-op `PythonOperator` `update_version` (a fresh task
identifier `joinId`) and call `connect((self.tasks, update_version))` —
note that the first element of that tuple is the `Tasks` dataclass
instance itself; select `list(self.tasks.last)[0]` as the task that gets
the `update` callback; finally wire every `last` task of every
dependency (given as `depLasts`) as an upstream of every `first` task.
Returns the final `Tasks` triple, the selected last task and the edge
set. -/
def postInit (tasksExpr : PyObj) (joinId : Nat) (depLasts : List (Finset Nat))
    (E : Finset (Nat × Nat)) :
    Except PostInitError (Tasks × Nat × Finset (Nat × Nat)) :=
  match connect tasksExpr E with
  | .error _ => .error .connectTypeError
  | .ok (t, E1) =>
    match
      (if t.last.card > 1 then
        connect (.tup [.tasksVal t, .op joinId]) E1
      else
        .ok (t, E1)) with
    | .error _ => .error .connectTypeError
    | .ok (t2, E2) =>
      match listIndexZero t2.last with
      | .error e => .error e
      | .ok lastTask =>
        let E3 := E2 ∪ depLasts.foldr (fun ls acc => ls ×ˢ t2.first ∪ acc) ∅
        .ok (t2, lastTask, E3)

/-- A row of the `datasets` table as seen by the ORM session in
`check_version` and `update`: `Model(id, name, version)` (the `epoch`
column keeps its default and plays no role). -/
structure Record where
  id : Nat
  name : String
  version : String
deriving DecidableEq

/-- The portion of database state touched by `check_version` and
`update`: the `datasets` rows, the `dependency_graph` rows as pairs
`(dependent_id, dependency_id)`, and the next value of the `id`
sequence. -/
structure Registry where
  records : List Record
  links : List (Nat × Nat)
  nextId : Nat
deriving DecidableEq

/-- One round of the ORM delete cascade `cascade="all, delete"` placed
on the `dependents` backref of `Model.dependencies`: deleting a record
also deletes every record that depends on it.  Given the identifiers
`D` already marked for deletion, add the identifiers of records that
link to a member of `D` as their dependency. -/
def dependentsStep (records : List Record) (links : List (Nat × Nat)) (D : List Nat) : List Nat :=
  D ++ (records.filter
    (fun r => r.id ∉ D ∧ links.any (fun l => l.1 = r.id ∧ l.2 ∈ D) = true)).map Record.id

/-- The delete cascade iterated to a fixed point (the number of records
bounds the number of useful rounds). -/
def cascadeClosure (records : List Record) (links : List (Nat × Nat)) :
    Nat → List Nat → List Nat
  | 0, D => D
  | n + 1, D => cascadeClosure records links n (dependentsStep records links D)

/-- The loop `for ds in datasets: session.delete(ds)` of `skip_task`,
applied to every record whose `name` matches: the records marked for
deletion (grown by the ORM cascade on `dependents`) disappear, and so
does every `dependency_graph` row touching a deleted record. -/
def deleteByName (reg : Registry) (name : String) : Registry :=
  let D := cascadeClosure reg.records reg.links reg.records.length
    ((reg.records.filter (fun r => r.name = name)).map Record.id)
  { records := reg.records.filter (fun r => r.id ∉ D)
    links := reg.links.filter (fun l => l.1 ∉ D ∧ l.2 ∉ D)
    nextId := reg.nextId }

/-- `Dataset.update(session)`: create `Model(name, version)`, set its
`dependencies` to the records whose `(name, version)` pair is among the
declared dependencies' pairs, and add it to the session.  The flush
assigns the next identifier and inserts one `dependency_graph` row per
matched dependency record. -/
def update (name version : String) (deps : List (String × String)) (reg : Registry) : Registry :=
  let dependencies := reg.records.filter (fun r => (r.name, r.version) ∈ deps)
  { records := reg.records ++ [⟨reg.nextId, name, version⟩]
    links := reg.links ++ dependencies.map (fun d => (reg.nextId, d.id))
    nextId := reg.nextId + 1 }

/-- The observable outcome of running one wrapped task body
(`skip_task`): whether the original body ran, whether the
`AirflowSkipException` was raised, the session state the body saw
(`none` when it never ran), and the state after the session scope
closes. -/
structure RunResult where
  bodyExecuted : Bool
  skipped : Bool
  registryAtBody : Option Registry
  final : Registry
deriving DecidableEq

/-- The wrapper `skip_task` produced by `Dataset.check_version` for a
task of the dataset `(name, version)` whose declared dependencies have
the `(name, version)` pairs `deps`.  `isLast` tells whether
`after_execution` is `[self.update]` (the selected last task) or `[]`
(every other task).  Mirrors the source: query the records with this
`name`; if this `version` is among their versions, raise
`AirflowSkipException` without touching the session; otherwise delete
them all, run the original body, then run the `after_execution`
callbacks. -/
def skip_task (name version : String) (deps : List (String × String))
    (isLast : Bool) (reg : Registry) : RunResult :=
  let datasets := reg.records.filter (fun r => r.name = name)
  if version ∈ datasets.map Record.version then
    ⟨false, true, none, reg⟩
  else
    let reg1 := deleteByName reg name
    let reg2 := if isLast then update name version deps reg1 else reg1
    ⟨true, false, some reg1, reg2⟩

/-- A stored row of the `datasets` table for the schema model: `id`
(primary key), `name` and `version` (string columns whose values may in
principle be NULL, hence `Option`). -/
structure Row where
  id : Nat
  name : Option String
  version : Option String
deriving DecidableEq

/-- No two entries of the list give `f` the same value (the check a
column-level `unique=True` or primary-key constraint performs). -/
def distinctBy {α β : Type} [DecidableEq β] (f : α → β) : List α → Bool
  | [] => true
  | x :: xs => xs.all (fun y => f y ≠ f x) && distinctBy f xs

/-- The constraints the source schema places on the `datasets` table,
read off the column declarations of `class Model`: `id` is the primary
key, `name` is declared `unique=True, nullable=False`, and `version` is
declared `nullable=False` with no uniqueness.  (Since `name` can never
be NULL, the SQL subtlety that NULLs do not collide under UNIQUE plays
no role.) -/
def datasetsValid (rows : List Row) : Bool :=
  distinctBy Row.id rows &&
  distinctBy (fun r => r.name) rows &&
  rows.all (fun r => r.name ≠ none && r.version ≠ none)

/-- Modelled from the spec: the constraints the specification claims for
the units table — "units `(id, name, version)` with a uniqueness
constraint on `(name, version)`" — for comparison against
`datasetsValid`, which is read off the source. -/
def specDatasetsValid (rows : List Row) : Bool :=
  distinctBy Row.id rows &&
  distinctBy (fun r => (r.name, r.version)) rows &&
  rows.all (fun r => r.name ≠ none && r.version ≠ none)

/-- The argument shapes that reach the final `else` branch of `connect`:
not an `Operator`, not a sized collection of length zero, not a set, not
a tuple.  (`other (some 0)`, the empty sized collection, is excluded: it
returns the empty `Tasks` triple.) -/
def invalidShape : PyObj → Bool
  | .op _ => false
  | .set _ => false
  | .tup _ => false
  | .other none => true
  | .other (some 0) => false
  | .other (some (_ + 1)) => true
  | .tasksVal _ => true

/-- A heap of Python list objects holding values of type `α`: addresses
are allocation indices, every address below `next` is allocated. -/
structure PyHeap (α : Type) where
  store : Nat → List α
  next : Nat

/-- The statement `self.dependencies = list(self.dependencies)` of
`Dataset.__post_init__`: the `list(...)` call allocates a fresh list
object whose contents are copied from the argument, and the dataset
keeps a reference to the fresh object.  Returns the updated heap and
the fresh address. -/
def snapshotDependencies {α : Type} (h : PyHeap α) (src : Nat) : PyHeap α × Nat :=
  (⟨fun a => if a = h.next then h.store src else h.store a, h.next + 1⟩, h.next)

/-- An in-place mutation of the list object at address `r` (for example
`L.append(...)` or `L[:] = ...`), replacing its contents by `v`. -/
def setList {α : Type} (h : PyHeap α) (r : Nat) (v : List α) : PyHeap α :=
  ⟨fun a => if a = r then v else h.store a, h.next⟩

/-- Identifiers already marked for deletion stay marked after one
cascade round. -/
theorem subset_dependentsStep (records : List Record) (links : List (Nat × Nat)) (D : List Nat) :
    D ⊆ dependentsStep records links D :=
  List.subset_append_left _ _

/-- Identifiers already marked for deletion stay marked in the iterated
cascade. -/
theorem subset_cascadeClosure (records : List Record) (links : List (Nat × Nat)) :
    ∀ (n : Nat) (D : List Nat), D ⊆ cascadeClosure records links n D := by
  intro n
  induction n with
  | zero => intro D; exact fun x hx => hx
  | succ k ih =>
    intro D
    exact List.Subset.trans (subset_dependentsStep records links D)
      (ih (dependentsStep records links D))

/-- After `deleteByName`, no record with the deleted name remains: the
records initially selected by name are all marked for deletion and the
cascade only grows the marked set. -/
theorem deleteByName_no_name_records (reg : Registry) (name : String) :
    (deleteByName reg name).records.filter (fun r => r.name = name) = [] := by
  rw [List.filter_eq_nil_iff]
  intro r hr
  simp only [deleteByName, List.mem_filter, decide_eq_true_eq] at hr
  intro hname
  simp only [decide_eq_true_eq] at hname
  apply hr.2
  apply subset_cascadeClosure
  simp only [List.mem_map, List.mem_filter, decide_eq_true_eq]
  exact ⟨r, ⟨hr.1, hname⟩, rfl⟩

/-- Two entries of a `distinctBy f` list that differ as values have
different `f`-values. -/
theorem distinctBy_mem_ne {α β : Type} [DecidableEq β] (f : α → β) (l : List α)
    (h : distinctBy f l = true) (x y : α) (hx : x ∈ l) (hy : y ∈ l) (hxy : x ≠ y) :
    f x ≠ f y := by
  induction l with
  | nil => cases hx
  | cons a as ih =>
    simp only [distinctBy, Bool.and_eq_true, List.all_eq_true, decide_eq_true_eq] at h
    rcases List.mem_cons.mp hx with hxa | hxas <;>
      rcases List.mem_cons.mp hy with hya | hyas
    · exact absurd (hxa.trans hya.symm) hxy
    · subst hxa
      exact fun he => h.1 y hyas he.symm
    · subst hya
      exact h.1 x hxas
    · exact ih h.2 hxas hyas

/-- C1: the claim says that when the flattened `last` set has more than
one member, `__post_init__` synthesizes one no-op join task, wires every
member of `last` to it and leaves `last` the singleton of the join node.
The code instead crashes: `connect((self.tasks, update_version))` passes
the `Tasks` dataclass instance inside the tuple, and `connect` rejects a
`Tasks` instance (it is not an `Operator`, has no `__len__`, and is
neither a set nor a tuple), raising the `TypeError` of its final branch.
Here the expression is a parallel set of three tasks, so `last` has
three members, yet construction ends in the `TypeError` instead of
producing a join node. -/
theorem claim1_join_synthesis_raises_type_error (joinId : Nat) (E : Finset (Nat × Nat)) :
    postInit (.set [.op 0, .op 1, .op 2]) joinId [] E = .error .connectTypeError := by
  simp [postInit, connect, connectList, unionFirsts, unionLasts, unionAlls,
    ← Finset.insert_eq]

/-- C2: whenever some stored record has this dataset's name and exactly
its version, the wrapped task raises `AirflowSkipException` and the
original body never runs. -/
theorem claim2_skip_when_version_already_recorded (name version : String)
    (deps : List (String × String)) (isLast : Bool) (reg : Registry) (r : Record)
    (hr : r ∈ reg.records) (hname : r.name = name) (hversion : r.version = version) :
    (skip_task name version deps isLast reg).skipped = true ∧
    (skip_task name version deps isLast reg).bodyExecuted = false := by
  have hmem : version ∈ (reg.records.filter (fun x => x.name = name)).map Record.version := by
    simp only [List.mem_map, List.mem_filter]
    exact ⟨r, ⟨hr, by simp [hname]⟩, hversion⟩
  simp [skip_task, hmem]

/-- Witness for C2: a dataset named `X` at version `1.0` with one stored
record `("X", "1.0")` is skipped and its body does not run. -/
theorem claim2_witness :
    (⟨1, "X", "1.0"⟩ : Record) ∈ (⟨[⟨1, "X", "1.0"⟩], [], 2⟩ : Registry).records ∧
    (skip_task "X" "1.0" [] true ⟨[⟨1, "X", "1.0"⟩], [], 2⟩).skipped = true ∧
    (skip_task "X" "1.0" [] true ⟨[⟨1, "X", "1.0"⟩], [], 2⟩).bodyExecuted = false :=
  ⟨by simp, claim2_skip_when_version_already_recorded "X" "1.0" [] true
    ⟨[⟨1, "X", "1.0"⟩], [], 2⟩ ⟨1, "X", "1.0"⟩ (by simp) rfl rfl⟩

/-- C3: when records for this name exist but none has this version, the
wrapped task deletes every record with this name, then runs the body
against that cleaned state; and for the sole terminal task (`isLast`),
after the body succeeds exactly one new record `(name, version)` is
appended, linked to exactly the surviving records whose
`(name, version)` pair is among the declared dependencies' pairs. -/
theorem claim3_stale_records_deleted_then_insert (reg : Registry) (name version : String)
    (deps : List (String × String))
    (hne : reg.records.filter (fun r => r.name = name) ≠ [])
    (hnov : version ∉ (reg.records.filter (fun r => r.name = name)).map Record.version) :
    (skip_task name version deps true reg).bodyExecuted = true ∧
    (skip_task name version deps true reg).skipped = false ∧
    (skip_task name version deps true reg).registryAtBody = some (deleteByName reg name) ∧
    (deleteByName reg name).records.filter (fun r => r.name = name) = [] ∧
    (skip_task name version deps true reg).final.records =
      (deleteByName reg name).records ++ [⟨reg.nextId, name, version⟩] ∧
    (skip_task name version deps true reg).final.links =
      (deleteByName reg name).links ++
        ((deleteByName reg name).records.filter
          (fun r => (r.name, r.version) ∈ deps)).map (fun d => (reg.nextId, d.id)) := by
  refine ⟨?_, ?_, ?_, deleteByName_no_name_records reg name, ?_, ?_⟩ <;>
    simp [skip_task, hnov, update, deleteByName]

/-- Witness for C3: dataset `X` at version `1.0` with a stale record
`("X", "0.9")` and a dependency record `("D", "1.0")`: the stale record
is deleted, the body runs, and the new record `("X", "1.0")` is inserted
with one link to the dependency record. -/
theorem claim3_witness :
    (⟨[⟨1, "X", "0.9"⟩, ⟨2, "D", "1.0"⟩], [], 3⟩ : Registry).records.filter
      (fun r => r.name = "X") ≠ [] ∧
    "1.0" ∉ ((⟨[⟨1, "X", "0.9"⟩, ⟨2, "D", "1.0"⟩], [], 3⟩ : Registry).records.filter
      (fun r => r.name = "X")).map Record.version ∧
    ((skip_task "X" "1.0" [("D", "1.0")] true
        ⟨[⟨1, "X", "0.9"⟩, ⟨2, "D", "1.0"⟩], [], 3⟩).bodyExecuted = true ∧
      (skip_task "X" "1.0" [("D", "1.0")] true
        ⟨[⟨1, "X", "0.9"⟩, ⟨2, "D", "1.0"⟩], [], 3⟩).skipped = false ∧
      (skip_task "X" "1.0" [("D", "1.0")] true
          ⟨[⟨1, "X", "0.9"⟩, ⟨2, "D", "1.0"⟩], [], 3⟩).registryAtBody =
        some (deleteByName ⟨[⟨1, "X", "0.9"⟩, ⟨2, "D", "1.0"⟩], [], 3⟩ "X") ∧
      (deleteByName ⟨[⟨1, "X", "0.9"⟩, ⟨2, "D", "1.0"⟩], [], 3⟩ "X").records.filter
        (fun r => r.name = "X") = [] ∧
      (skip_task "X" "1.0" [("D", "1.0")] true
          ⟨[⟨1, "X", "0.9"⟩, ⟨2, "D", "1.0"⟩], [], 3⟩).final.records =
        (deleteByName ⟨[⟨1, "X", "0.9"⟩, ⟨2, "D", "1.0"⟩], [], 3⟩ "X").records ++
          [⟨3, "X", "1.0"⟩] ∧
      (skip_task "X" "1.0" [("D", "1.0")] true
          ⟨[⟨1, "X", "0.9"⟩, ⟨2, "D", "1.0"⟩], [], 3⟩).final.links =
        (deleteByName ⟨[⟨1, "X", "0.9"⟩, ⟨2, "D", "1.0"⟩], [], 3⟩ "X").links ++
          ((deleteByName ⟨[⟨1, "X", "0.9"⟩, ⟨2, "D", "1.0"⟩], [], 3⟩ "X").records.filter
            (fun r => (r.name, r.version) ∈ [("D", "1.0")])).map (fun d => (3, d.id))) :=
  ⟨by decide, by decide,
    claim3_stale_records_deleted_then_insert ⟨[⟨1, "X", "0.9"⟩, ⟨2, "D", "1.0"⟩], [], 3⟩
      "X" "1.0" [("D", "1.0")] (by decide) (by decide)⟩

/-- C4 counterexample: the claim asserts the units table accepts two
distinct records sharing a name as long as their versions differ.  The
source column declaration `name = Column(String, unique=True, ...)` puts
the uniqueness constraint on `name` alone, so the two-record state
`("X", "0.9"), ("X", "1.0")` — accepted by the specification's
`(name, version)` pair constraint — violates the source schema. -/
theorem claim4_name_unique_counterexample :
    specDatasetsValid [⟨1, some "X", some "0.9"⟩, ⟨2, some "X", some "1.0"⟩] = true ∧
    datasetsValid [⟨1, some "X", some "0.9"⟩, ⟨2, some "X", some "1.0"⟩] = false := by
  constructor <;> rfl

/-- C4 (amended): the uniqueness constraint of the units table is on
`name` alone: in any stored state satisfying the source schema, two
distinct records never share a name, whatever their versions. -/
theorem claim4_uniqueness_on_name_alone (rows : List Row) (h : datasetsValid rows = true)
    (r1 r2 : Row) (h1 : r1 ∈ rows) (h2 : r2 ∈ rows) (hne : r1 ≠ r2) :
    r1.name ≠ r2.name := by
  have hd : distinctBy (fun r => r.name) rows = true := by
    simp only [datasetsValid, Bool.and_eq_true] at h
    exact h.1.2
  exact distinctBy_mem_ne (fun r => r.name) rows hd r1 r2 h1 h2 hne

/-- Witness for the amended C4: a valid two-record state (note the two
records may share a version — only names must differ). -/
theorem claim4_uniqueness_witness :
    datasetsValid [⟨1, some "X", some "1.0"⟩, ⟨2, some "Y", some "1.0"⟩] = true ∧
    (⟨1, some "X", some "1.0"⟩ : Row) ≠ ⟨2, some "Y", some "1.0"⟩ ∧
    (⟨1, some "X", some "1.0"⟩ : Row).name ≠ (⟨2, some "Y", some "1.0"⟩ : Row).name :=
  ⟨rfl, by decide,
    claim4_uniqueness_on_name_alone [⟨1, some "X", some "1.0"⟩, ⟨2, some "Y", some "1.0"⟩] rfl
      ⟨1, some "X", some "1.0"⟩ ⟨2, some "Y", some "1.0"⟩ (by simp) (by simp) (by decide)⟩

/-- C5: flattening `({A, B}, C)` for distinct tasks adds exactly the
edges `A → C` and `B → C`, neither `A → B` nor `B → A`, and returns
`first = {A, B}`, `last = {C}`, `all = {A, B, C}`. -/
theorem claim5_parallel_pair_then_single (a b c : Nat)
    (hab : a ≠ b) (hac : a ≠ c) (hbc : b ≠ c) :
    connect (.tup [.set [.op a, .op b], .op c]) ∅ =
      .ok (⟨{a, b}, {c}, {a, b, c}⟩, {(a, c), (b, c)}) ∧
    (a, b) ∉ ({(a, c), (b, c)} : Finset (Nat × Nat)) ∧
    (b, a) ∉ ({(a, c), (b, c)} : Finset (Nat × Nat)) := by
  refine ⟨?_, ?_, ?_⟩
  · simp [connect, connectList, unionFirsts, unionLasts, unionAlls, headFirst,
      lastLast, chainEdges, ← Finset.insert_eq, Finset.map_insert, Finset.map_singleton]
  · simp only [Finset.mem_insert, Finset.mem_singleton, Prod.mk.injEq]
    tauto
  · simp only [Finset.mem_insert, Finset.mem_singleton, Prod.mk.injEq]
    tauto

/-- Witness for C5 at the tasks `0`, `1`, `2`. -/
theorem claim5_witness :
    (0 : Nat) ≠ 1 ∧ (0 : Nat) ≠ 2 ∧ (1 : Nat) ≠ 2 ∧
    (connect (.tup [.set [.op 0, .op 1], .op 2]) ∅ =
        .ok (⟨{0, 1}, {2}, {0, 1, 2}⟩, {(0, 2), (1, 2)}) ∧
      (0, 1) ∉ ({(0, 2), (1, 2)} : Finset (Nat × Nat)) ∧
      (1, 0) ∉ ({(0, 2), (1, 2)} : Finset (Nat × Nat))) :=
  ⟨by decide, by decide, by decide,
    claim5_parallel_pair_then_single 0 1 2 (by decide) (by decide) (by decide)⟩

/-- C6: every argument of `connect` that is neither an `Operator`, nor a
set, nor a tuple, nor an empty sized collection makes `connect` raise
the `TypeError` of its final branch (the specification's
`InvalidGraphExpression`), during graph construction and before any task
runs. -/
theorem claim6_invalid_expression_type_error (o : PyObj) (E : Finset (Nat × Nat))
    (h : invalidShape o = true) : connect o E = .error .typeError := by
  match o with
  | .op t => simp [invalidShape] at h
  | .set gs => simp [invalidShape] at h
  | .tup gs => simp [invalidShape] at h
  | .other none => simp [connect]
  | .other (some 0) => simp [invalidShape] at h
  | .other (some (n + 1)) => simp [connect]
  | .tasksVal t => simp [connect]

/-- Witness for C6: an object with no length (for example an integer)
is rejected. -/
theorem claim6_witness :
    invalidShape (.other none) = true ∧
    connect (.other none) ∅ = .error .typeError :=
  ⟨rfl, claim6_invalid_expression_type_error (.other none) ∅ rfl⟩

/-- C7: `__post_init__` snapshots the dependencies with `list(...)`:
after construction, mutating the caller's list object leaves the list
the dataset references holding the original contents. -/
theorem claim7_dependencies_defensive_copy {α : Type} (h : PyHeap α) (src : Nat)
    (hsrc : src < h.next) (v : List α) :
    (setList (snapshotDependencies h src).1 src v).store (snapshotDependencies h src).2 =
      h.store src := by
  simp [snapshotDependencies, setList, Nat.ne_of_gt hsrc]

/-- Witness for C7: one allocated list holding one dependency, emptied
by the caller after the snapshot. -/
theorem claim7_witness :
    (0 : Nat) < (PyHeap.mk (fun a => if a = 0 then ["d"] else ([] : List String)) 1).next ∧
    (setList
        (snapshotDependencies (PyHeap.mk (fun a => if a = 0 then ["d"] else ([] : List String)) 1) 0).1
        0 []).store
      (snapshotDependencies (PyHeap.mk (fun a => if a = 0 then ["d"] else ([] : List String)) 1) 0).2 =
      (PyHeap.mk (fun a => if a = 0 then ["d"] else ([] : List String)) 1).store 0 :=
  ⟨by decide,
    claim7_dependencies_defensive_copy
      (PyHeap.mk (fun a => if a = 0 then ["d"] else ([] : List String)) 1) 0 (by decide) []⟩

/-- C8: whenever the task expression flattens (without error) to empty
`first`/`last`/`all` sets — the default empty tuple included —
`__post_init__` reaches `list(self.tasks.last)[0]` with an empty set (no
join is synthesized since `last` does not have more than one member) and
fails with `IndexError`, so a dataset needs a non-empty task
expression. -/
theorem claim8_empty_expression_index_error (expr : PyObj) (joinId : Nat)
    (depLasts : List (Finset Nat)) (E E2 : Finset (Nat × Nat)) (t : Tasks)
    (hc : connect expr E = .ok (t, E2))
    (hfirst : t.first = ∅) (hlast : t.last = ∅) (hall : t.all = ∅) :
    postInit expr joinId depLasts E = .error .indexError := by
  simp [postInit, hc, hlast, listIndexZero]

/-- Witness for C8: the default task expression, the empty tuple. -/
theorem claim8_witness :
    connect (.tup []) ∅ = .ok (⟨∅, ∅, ∅⟩, ∅) ∧
    postInit (.tup []) 0 [] ∅ = .error .indexError :=
  ⟨by simp [connect],
    claim8_empty_expression_index_error (.tup []) 0 [] ∅ ∅ ⟨∅, ∅, ∅⟩
      (by simp [connect]) rfl rfl rfl⟩

/-- C9: flattening `(A, (), B)` with an empty middle element adds no
edge at all — in particular none from `A` to `B` — and returns
`first = {A}`, `last = {B}`: ordering does not propagate across an
empty element. -/
theorem claim9_no_ordering_across_empty_element (a b : Nat) (hab : a ≠ b) :
    connect (.tup [.op a, .tup [], .op b]) ∅ = .ok (⟨{a}, {b}, {a, b}⟩, ∅) ∧
    (a, b) ∉ (∅ : Finset (Nat × Nat)) := by
  refine ⟨?_, Finset.not_mem_empty _⟩
  simp [connect, connectList, unionFirsts, unionLasts, unionAlls, headFirst,
    lastLast, chainEdges, ← Finset.insert_eq]

/-- Witness for C9 at the tasks `0` and `1`. -/
theorem claim9_witness :
    (0 : Nat) ≠ 1 ∧
    (connect (.tup [.op 0, .tup [], .op 1]) ∅ = .ok (⟨{0}, {1}, {0, 1}⟩, ∅) ∧
      (0, 1) ∉ (∅ : Finset (Nat × Nat))) :=
  ⟨by decide, claim9_no_ordering_across_empty_element 0 1 (by decide)⟩

/-- C10: when the skip branch is taken (a record with this name and this
exact version exists), the raised `AirflowSkipException` leaves the
stored state untouched: the final registry equals the initial one, so
nothing was deleted or inserted. -/
theorem claim10_skip_leaves_registry_unchanged (name version : String)
    (deps : List (String × String)) (isLast : Bool) (reg : Registry) (r : Record)
    (hr : r ∈ reg.records) (hname : r.name = name) (hversion : r.version = version) :
    (skip_task name version deps isLast reg).final = reg ∧
    (skip_task name version deps isLast reg).skipped = true := by
  have hmem : version ∈ (reg.records.filter (fun x => x.name = name)).map Record.version := by
    simp only [List.mem_map, List.mem_filter]
    exact ⟨r, ⟨hr, by simp [hname]⟩, hversion⟩
  simp [skip_task, hmem]

/-- Witness for C10: a dataset `Y` at version `2.0` whose record is
stored, with a link row present; the state survives unchanged. -/
theorem claim10_witness :
    (⟨7, "Y", "2.0"⟩ : Record) ∈ (⟨[⟨7, "Y", "2.0"⟩], [(7, 7)], 8⟩ : Registry).records ∧
    (skip_task "Y" "2.0" [] false ⟨[⟨7, "Y", "2.0"⟩], [(7, 7)], 8⟩).final =
      ⟨[⟨7, "Y", "2.0"⟩], [(7, 7)], 8⟩ ∧
    (skip_task "Y" "2.0" [] false ⟨[⟨7, "Y", "2.0"⟩], [(7, 7)], 8⟩).skipped = true :=
  ⟨by simp, claim10_skip_leaves_registry_unchanged "Y" "2.0" [] false
    ⟨[⟨7, "Y", "2.0"⟩], [(7, 7)], 8⟩ ⟨7, "Y", "2.0"⟩ (by simp) rfl rfl⟩

end EgonDatasets
